import Mathlib

/-!
Shallow embedding of `src/main.py`, a text-statistics program: lexical
counters (`count_words`, `count_vowels`, `count_sentences`), a language
detector (`detect_language`), a Flesch-style readability scorer
(`fre_index`, `reading_difficulty`), and the sentiment-label thresholds
from `analyze_sentiment`.  Python strings are modelled as Lean `String`,
Python `int` as `Nat`, and Python `float` arithmetic as exact rational
arithmetic over `ℚ`.
-/

/-- Characters that Python `str.split()` (no argument) treats as
whitespace separators (the ASCII whitespace set: space, tab, newline,
carriage return, vertical tab, form feed). -/
def isPySpace (c : Char) : Bool :=
  c == ' ' || c == '\t' || c == '\n' || c == '\r' ||
  c == Char.ofNat 11 || c == Char.ofNat 12

/-- `count_words` from `src/main.py` line 68: `len(text.split())`.
Python `str.split()` splits on runs of whitespace and discards empty
pieces, so the word count is the number of non-empty pieces after
splitting at every whitespace character. -/
def count_words (t : String) : Nat :=
  ((t.data.splitOnP isPySpace).filter (fun w => !w.isEmpty)).length

/-- Python `str.lower()` restricted to the character ranges this program
distinguishes: ASCII `A`-`Z` and Cyrillic `А`-`Я`, `Ё` map to their
lowercase forms; every other character is unchanged. -/
def pyLower (c : Char) : Char :=
  if 65 ≤ c.toNat ∧ c.toNat ≤ 90 then Char.ofNat (c.toNat + 32)
  else if 0x410 ≤ c.toNat ∧ c.toNat ≤ 0x42F then Char.ofNat (c.toNat + 32)
  else if c.toNat = 0x401 then Char.ofNat 0x451
  else c

/-- The fixed vowel string `'aeiouyаоуыэиёеяю'` of `src/main.py` line 81. -/
def vowels : List Char := "aeiouyаоуыэиёеяю".data

/-- `count_vowels` from `src/main.py` lines 81-82:
`sum(1 for letter in text.lower() if letter in vowels)`. -/
def count_vowels (t : String) : Nat :=
  (t.data.map pyLower).countP (fun c => vowels.contains c)

/-- `count_sentences` from `src/main.py` lines 95-96:
`count = text.count('.') + text.count('?') + text.count('!')`,
`return count if count > 0 else 1`. -/
def count_sentences (t : String) : Nat :=
  let count := t.data.count '.' + t.data.count '?' + t.data.count '!'
  if count > 0 then count else 1

/-- The language tags returned by `detect_language`. -/
inductive Lang
  | RU
  | ENG
  | UNKNOWN
deriving DecidableEq, Repr

/-- `detect_language` from `src/main.py` lines 109-116:
`no_space = text.replace(' ', '')` (only the space character U+0020 is
removed), empty remainder yields UNKNOWN, otherwise the floor average of
the code points decides RU (`> 500`) versus ENG. -/
def detect_language (t : String) : Lang :=
  let no_space := t.data.filter (fun c => c != ' ')
  if no_space.isEmpty then Lang.UNKNOWN
  else if (no_space.map Char.toNat).sum / no_space.length > 500 then Lang.RU
  else Lang.ENG

/-- `fre_index` from `src/main.py` lines 129-137: 0 when the word count
is 0, otherwise the Flesch formula over `asl = words/sentences` and
`asw = vowels/words`, with RU coefficients when `detect_language`
says RU and the default coefficients otherwise. -/
def fre_index (t : String) : ℚ :=
  if count_words t = 0 then 0
  else
    let asl : ℚ := (count_words t : ℚ) / (count_sentences t : ℚ)
    let asw : ℚ := (count_vowels t : ℚ) / (count_words t : ℚ)
    if detect_language t = Lang.RU then
      206.835 - 1.52 * asl - 65.14 * asw
    else
      206.835 - 1.015 * asl - 84.6 * asw

/-- The four difficulty labels printed by `reading_difficulty`. -/
inductive Difficulty
  | VERY_EASY
  | EASY
  | HARD
  | VERY_HARD
deriving DecidableEq, Repr

/-- `reading_difficulty` from `src/main.py` lines 150-160.  The Python
function is an `if`/`elif` ladder with no final `else`: the branches
test `> 80`, `> 50`, `> 25` and `< 25`, so when the index is exactly 25
no branch fires and the function returns `None`, modelled as `none`. -/
def reading_difficulty (t : String) : Option Difficulty :=
  if fre_index t > 80 then some Difficulty.VERY_EASY
  else if fre_index t > 50 then some Difficulty.EASY
  else if fre_index t > 25 then some Difficulty.HARD
  else if fre_index t < 25 then some Difficulty.VERY_HARD
  else none

/-- The three sentiment labels of `analyze_sentiment`. -/
inductive Sentiment
  | POSITIVE
  | NEGATIVE
  | NEUTRAL
deriving DecidableEq, Repr

/-- The polarity-to-label mapping from `src/main.py` lines 42-47:
`polarity > 0.1` is positive, `polarity < -0.1` is negative, everything
else neutral.  The polarity itself comes from an external sentiment
library and is taken here as an arbitrary rational input. -/
def sentiment_label (polarity : ℚ) : Sentiment :=
  if polarity > 0.1 then Sentiment.POSITIVE
  else if polarity < -0.1 then Sentiment.NEGATIVE
  else Sentiment.NEUTRAL

/-- A sentence terminator in the sense of `count_sentences`. -/
def isTerminator (c : Char) : Bool :=
  c == '.' || c == '?' || c == '!'

/-- A 580-character text with 180 words, 28 sentence terminators and 373
vowels: 179 words `a`, then one final word made of 194 `a`s followed by
28 periods.  Its Flesch index is exactly 25. -/
def txt25 : String :=
  String.mk ((List.replicate 179 ['a', ' ']).flatten ++
    List.replicate 194 'a' ++ List.replicate 28 '.')

set_option maxRecDepth 10000
set_option linter.unnecessarySeqFocus false

/-- The three per-character counts of `count_sentences` add up to the
number of terminator characters in the text. -/
theorem count_terminators_eq (l : List Char) :
    l.count '.' + l.count '?' + l.count '!' = l.countP isTerminator := by
  induction l with
  | nil => rfl
  | cons x xs ih =>
    simp only [List.count_cons, List.countP_cons, isTerminator, Bool.or_eq_true, beq_iff_eq]
    by_cases h1 : x = '.' <;> by_cases h2 : x = '?' <;> by_cases h3 : x = '!' <;>
      simp_all <;> omega

/-- Splitting a list made only of separators leaves no non-empty piece. -/
theorem splitOnP_all_sep (l : List Char) (h : ∀ c ∈ l, isPySpace c = true) :
    (l.splitOnP isPySpace).filter (fun w => !w.isEmpty) = [] := by
  induction l with
  | nil => simp [List.splitOnP_nil]
  | cons x xs ih =>
    rw [List.splitOnP_cons, if_pos (h x (List.mem_cons_self x xs))]
    simpa using ih (fun c hc => h c (List.mem_cons_of_mem x hc))

/-- `countP` as a sum of per-element indicators. -/
theorem countP_eq_sum_ind (p : Char → Bool) (l : List Char) :
    l.countP p = (l.map fun c => if p c then 1 else 0).sum := by
  induction l with
  | nil => rfl
  | cons x xs ih =>
    cases hp : p x <;> simp [List.countP_cons, hp, ih] <;> omega

/-- C1 counterexample: the claim says `count_sentences ""` is 0 (the
trim-and-split rule), but the code returns the floor value 1 on the
empty text. -/
theorem C1_counterexample : count_sentences "" = 1 ∧ count_sentences "" ≠ 0 := by
  decide

/-- C1 amended: `count_sentences` returns the total number of terminator
characters in the text, with a floor of 1 when that total is 0; hence
the empty text and pure-whitespace text both yield 1 (not 0), while
the worked examples of the claim keep their values. -/
theorem C1_amended (t : String) :
    count_sentences t = max (t.data.countP isTerminator) 1 ∧
    count_sentences "" = 1 ∧
    count_sentences "   " = 1 ∧
    count_sentences "Hi. Bye!" = 2 ∧
    count_sentences "No terminator here" = 1 := by
  refine ⟨?_, by decide, by decide, by decide, by decide⟩
  simp only [count_sentences, ← count_terminators_eq]
  split <;> omega

/-- C5: whenever the word count of a text is 0, `fre_index` returns 0,
before any division is attempted. -/
theorem C5_zero_words (t : String) (h : count_words t = 0) : fre_index t = 0 := by
  rw [fre_index, if_pos h]

/-- C5 witness: the empty text has word count 0 and index 0. -/
theorem C5_zero_words_witness : count_words "" = 0 ∧ fre_index "" = 0 :=
  ⟨by decide, C5_zero_words "" (by decide)⟩

/-- C8: `count_words` splits on whitespace runs and counts the non-empty
tokens, so every text made only of whitespace has word count 0, and the
worked examples hold. -/
theorem C8_count_words :
    (∀ t : String, (∀ c ∈ t.data, isPySpace c = true) → count_words t = 0) ∧
    count_words "" = 0 ∧
    count_words "  " = 0 ∧
    count_words "one two  three" = 3 := by
  refine ⟨fun t h => ?_, by decide, by decide, by decide⟩
  unfold count_words
  rw [splitOnP_all_sep t.data h]
  rfl

/-- C8 witness: a tab-newline text is whitespace-only and has word
count 0. -/
theorem C8_count_words_witness : count_words "\t\n" = 0 :=
  C8_count_words.1 "\t\n" (by decide)

/-- C9: `count_vowels` adds, over the lower-cased characters of the
text, an indicator that is 1 exactly on members of the fixed vowel set,
so non-vowel characters (digits, punctuation, spaces) contribute 0;
the worked examples hold, and a text of digits, punctuation and spaces
counts 0. -/
theorem C9_count_vowels (t : String) :
    count_vowels t =
      ((t.data.map pyLower).map (fun c => if vowels.contains c then 1 else 0)).sum ∧
    count_vowels "Hello" = 2 ∧
    count_vowels "привет" = 2 ∧
    count_vowels "7, 9; -" = 0 :=
  ⟨countP_eq_sum_ind _ _, by decide, by decide, by decide⟩

/-- C10: `count_sentences` never returns 0 (its floor is 1), so the
divisor `sentence_count` in `fre_index` is never zero, also after the
cast into the rationals where the division happens. -/
theorem C10_sentences_positive (t : String) :
    1 ≤ count_sentences t ∧ ((count_sentences t : ℚ) ≠ 0) := by
  have h : 1 ≤ count_sentences t := by
    simp only [count_sentences]
    split <;> omega
  exact ⟨h, Nat.cast_ne_zero.mpr (by omega)⟩

/-- The word count of the 580-character example `txt25` is 180. -/
theorem txt25_words : count_words txt25 = 180 := by decide

/-- The vowel count of `txt25` is 373. -/
theorem txt25_vowels : count_vowels txt25 = 373 := by decide

/-- The sentence count of `txt25` is 28. -/
theorem txt25_sentences : count_sentences txt25 = 28 := by decide

/-- `txt25` is detected as English. -/
theorem txt25_lang : detect_language txt25 = Lang.ENG := by decide

/-- The Flesch index of `txt25` is exactly 25:
`206.835 - 1.015 * (180 / 28) - 84.6 * (373 / 180) = 25`. -/
theorem txt25_fre : fre_index txt25 = 25 := by
  rw [fre_index, txt25_words, txt25_vowels, txt25_sentences, txt25_lang]
  simp only [reduceCtorEq, if_false]
  norm_num

/-- C2 counterexample: the claim says every index of at most 25 yields
the VERY_HARD label, making the function total over the four labels; but
on `txt25`, whose index is exactly 25, no branch of the ladder fires and
the code returns `None` rather than a label. -/
theorem C2_counterexample : fre_index txt25 = 25 ∧ reading_difficulty txt25 = none := by
  refine ⟨txt25_fre, ?_⟩
  rw [reading_difficulty, txt25_fre]
  norm_num

/-- C2 amended: the ladder is evaluated top-down with first match wins:
index above 80 is VERY_EASY, above 50 is EASY, above 25 is HARD, and
strictly below 25 is VERY_HARD; at an index of exactly 25 no branch
matches and the function returns no label. -/
theorem C2_amended (t : String) :
    (fre_index t = 25 → reading_difficulty t = none) ∧
    (80 < fre_index t → reading_difficulty t = some Difficulty.VERY_EASY) ∧
    (50 < fre_index t → fre_index t ≤ 80 → reading_difficulty t = some Difficulty.EASY) ∧
    (25 < fre_index t → fre_index t ≤ 50 → reading_difficulty t = some Difficulty.HARD) ∧
    (fre_index t < 25 → reading_difficulty t = some Difficulty.VERY_HARD) := by
  unfold reading_difficulty
  refine ⟨fun h => ?_, fun h => ?_, fun h1 h2 => ?_, fun h1 h2 => ?_, fun h => ?_⟩ <;>
    split_ifs <;> first | rfl | (exfalso; linarith)

/-- C2 witness: the empty text has index 0 and gets the VERY_HARD
label; the text consisting of one short sentence has index above 80 and
gets the VERY_EASY label. -/
theorem C2_amended_witness :
    reading_difficulty "" = some Difficulty.VERY_HARD ∧
    reading_difficulty "Hi." = some Difficulty.VERY_EASY := by
  have h0 : fre_index "" = 0 := C5_zero_words "" (by decide)
  have hw : count_words "Hi." = 1 := by decide
  have hv : count_vowels "Hi." = 1 := by decide
  have hs : count_sentences "Hi." = 1 := by decide
  have hl : detect_language "Hi." = Lang.ENG := by decide
  have h1 : fre_index "Hi." = 6061 / 50 := by
    rw [fre_index, hw, hv, hs, hl]
    simp only [reduceCtorEq, if_false]
    norm_num
  exact ⟨(C2_amended "").2.2.2.2 (by rw [h0]; norm_num),
         (C2_amended "Hi.").2.1 (by rw [h1]; norm_num)⟩

/-- C3 counterexample: a tab character is whitespace, yet
`detect_language` only strips the space character U+0020, so the
whitespace-only text made of one tab is classified ENG, not UNKNOWN. -/
theorem C3_counterexample :
    (∀ c ∈ String.data "\t", isPySpace c = true) ∧
    detect_language "\t" ≠ Lang.UNKNOWN ∧
    detect_language "\t" = Lang.ENG := by
  decide

/-- C3 amended: for every text made only of space characters (U+0020),
including the empty text, `detect_language` returns UNKNOWN; other
whitespace characters are not stripped and defeat the guard. -/
theorem C3_amended (t : String) (h : ∀ c ∈ t.data, c = ' ') :
    detect_language t = Lang.UNKNOWN := by
  have hf : t.data.filter (fun c => c != ' ') = [] :=
    List.filter_eq_nil_iff.mpr (fun a ha => by simp [h a ha])
  simp [detect_language, hf]

/-- C3 witness: three spaces are detected as UNKNOWN. -/
theorem C3_amended_witness : detect_language "   " = Lang.UNKNOWN :=
  C3_amended "   " (by decide)

/-- C4: for a text with nonzero word count, `fre_index` is exactly the
Flesch formula with the RU coefficients (1.52, 65.14) when the detector
says RU and the default coefficients (1.015, 84.6) otherwise, with
`asl = word_count / sentence_count` and `asw = vowel_count / word_count`
computed by the lexical counters on the same text. -/
theorem C4_fre_formula (t : String) (h : count_words t ≠ 0) :
    fre_index t =
      if detect_language t = Lang.RU then
        206.835 - 1.52 * ((count_words t : ℚ) / (count_sentences t : ℚ))
          - 65.14 * ((count_vowels t : ℚ) / (count_words t : ℚ))
      else
        206.835 - 1.015 * ((count_words t : ℚ) / (count_sentences t : ℚ))
          - 84.6 * ((count_vowels t : ℚ) / (count_words t : ℚ)) := by
  rw [fre_index, if_neg h]

/-- C4 witness: the text of one short sentence has word count 1 and its
index is given by the default-coefficient branch of the formula. -/
theorem C4_fre_formula_witness :
    count_words "Hi." ≠ 0 ∧
    fre_index "Hi." =
      (if detect_language "Hi." = Lang.RU then
        206.835 - 1.52 * ((count_words "Hi." : ℚ) / (count_sentences "Hi." : ℚ))
          - 65.14 * ((count_vowels "Hi." : ℚ) / (count_words "Hi." : ℚ))
      else
        206.835 - 1.015 * ((count_words "Hi." : ℚ) / (count_sentences "Hi." : ℚ))
          - 84.6 * ((count_vowels "Hi." : ℚ) / (count_words "Hi." : ℚ))) :=
  ⟨by decide, C4_fre_formula "Hi." (by decide)⟩

/-- C6: the polarity-to-label thresholds are strict: polarity above 0.1
is POSITIVE, below -0.1 is NEGATIVE, and the whole closed interval
[-0.1, 0.1] — its endpoints included — is NEUTRAL. -/
theorem C6_sentiment_thresholds (p : ℚ) :
    (0.1 < p → sentiment_label p = Sentiment.POSITIVE) ∧
    (p < -0.1 → sentiment_label p = Sentiment.NEGATIVE) ∧
    (-0.1 ≤ p → p ≤ 0.1 → sentiment_label p = Sentiment.NEUTRAL) ∧
    sentiment_label 0.1 = Sentiment.NEUTRAL ∧
    sentiment_label (-0.1) = Sentiment.NEUTRAL := by
  unfold sentiment_label
  refine ⟨fun h => ?_, fun h => ?_, fun h1 h2 => ?_, ?_, ?_⟩ <;>
    split_ifs <;> first | rfl | (exfalso; linarith)

/-- C6 witness: polarity one half is POSITIVE, minus one half is
NEGATIVE, zero is NEUTRAL. -/
theorem C6_sentiment_thresholds_witness :
    sentiment_label (1 / 2) = Sentiment.POSITIVE ∧
    sentiment_label (-(1 / 2)) = Sentiment.NEGATIVE ∧
    sentiment_label 0 = Sentiment.NEUTRAL :=
  ⟨(C6_sentiment_thresholds (1 / 2)).1 (by norm_num),
   (C6_sentiment_thresholds (-(1 / 2))).2.1 (by norm_num),
   (C6_sentiment_thresholds 0).2.2.1 (by norm_num) (by norm_num)⟩

/-- C7: `detect_language` strips the space characters from the text;
an empty remainder yields UNKNOWN, and otherwise the language is RU
exactly when the floor average of the remaining code points exceeds 500
and ENG when it does not; the three worked examples hold. -/
theorem C7_detect_language (t : String) :
    (t.data.filter (fun c => c != ' ') = [] → detect_language t = Lang.UNKNOWN) ∧
    (t.data.filter (fun c => c != ' ') ≠ [] →
      (500 < ((t.data.filter (fun c => c != ' ')).map Char.toNat).sum /
          (t.data.filter (fun c => c != ' ')).length →
        detect_language t = Lang.RU) ∧
      (((t.data.filter (fun c => c != ' ')).map Char.toNat).sum /
          (t.data.filter (fun c => c != ' ')).length ≤ 500 →
        detect_language t = Lang.ENG)) ∧
    detect_language "" = Lang.UNKNOWN ∧
    detect_language "hello" = Lang.ENG ∧
    detect_language "привет" = Lang.RU := by
  refine ⟨fun h => ?_, fun h => ⟨fun havg => ?_, fun havg => ?_⟩,
    by decide, by decide, by decide⟩
  · simp [detect_language, h]
  · simp [detect_language, List.isEmpty_iff, h, havg]
  · simp [detect_language, List.isEmpty_iff, h, Nat.not_lt.mpr havg]

/-- C7 witness: a space-only text is UNKNOWN through the empty-remainder
branch, `hello` is ENG through the low-average branch, and `привет` is
RU through the high-average branch. -/
theorem C7_detect_language_witness :
    detect_language " " = Lang.UNKNOWN ∧
    detect_language "hello" = Lang.ENG ∧
    detect_language "привет" = Lang.RU :=
  ⟨(C7_detect_language " ").1 (by decide),
   (((C7_detect_language "hello").2.1) (by decide)).2 (by decide),
   (((C7_detect_language "привет").2.1) (by decide)).1 (by decide)⟩
